import Mathlib

/-!
Shallow embedding of the two service modules of the repository
(`app/services/llm_service.py` and `app/services/mermaid_service.py`).

Python exceptions are modelled with `Except`: a function that can raise
returns `Except PyExc α`, a `try/except` block is a `match` on the body
that turns the caught exception classes into the handler result and
re-raises the rest.  External collaborators (the max-token validator, the
shared rate limiter, the OpenAI and Anthropic clients, the process
environment, the file system and the renderer child process) are modelled
as an explicit environment record whose fields give the outcome of each
external call; the side effects a call performs are recorded in an
explicit event trace returned next to the result.
-/

namespace LlmService

/-- Python exception values that can arise in the LLM service, one
constructor per (library) exception class that matters to the control
flow; the carried string is what Python `str` shows for the exception. -/
inductive PyExc where
  | invalidArgument (msg : String)
  | bucketFull (msg : String)
  | llmException (msg : String)
  | openAIException (msg : String)
  | anthropicException (msg : String)
  | openAIError (msg : String)
  | valueError (msg : String)
  | anthropicAPIError (msg : String)
  | keyError (key : String)
  | otherError (msg : String)
  deriving DecidableEq

/-- A Python dict with string keys and values, as used for the
role/content message objects. -/
abbrev PyDict := List (String × String)

/-- Python subscription `d[k]` on a string dict: the value when the key
is present, a raised `KeyError` otherwise. -/
def dictGet (d : PyDict) (k : String) : Except PyExc String :=
  match d.lookup k with
  | some v => Except.ok v
  | none => Except.error (PyExc.keyError k)

/-- The human turn marker constant imported from the Anthropic client
library (`anthropic.HUMAN_PROMPT`). -/
def HUMAN_PROMPT : String := "\n\nHuman:"

/-- The assistant turn marker constant imported from the Anthropic client
library (`anthropic.AI_PROMPT`). -/
def AI_PROMPT : String := "\n\nAssistant:"

/-- Modelled from the spec: the Anthropic vendor tag constant
`ANTHROPIC_AI_VENDOR` comes from `app/config.py`, which is not under
`src/`; the spec only requires it to be the distinguished vendor tag the
dispatcher compares against. -/
def ANTHROPIC_AI_VENDOR : String := "Anthropic"

/-- The loop of `format_anthropic_prompt`, accumulating the prompt built
so far: for each message, take `message["role"]` (a raised `KeyError`
propagates), append the marker and ` content` for the user and assistant
roles, skip every other role. -/
def formatAnthropicGo (prompt : String) : List PyDict → Except PyExc String
  | [] => Except.ok prompt
  | message :: rest =>
    match dictGet message "role" with
    | Except.error e => Except.error e
    | Except.ok role =>
      if role == "user" then
        match dictGet message "content" with
        | Except.error e => Except.error e
        | Except.ok content =>
          formatAnthropicGo (prompt ++ HUMAN_PROMPT ++ " " ++ content) rest
      else if role == "assistant" then
        match dictGet message "content" with
        | Except.error e => Except.error e
        | Except.ok content =>
          formatAnthropicGo (prompt ++ AI_PROMPT ++ " " ++ content) rest
      else
        formatAnthropicGo prompt rest

/-- `llm_service.format_anthropic_prompt`: format the messages into a
single flattened prompt for the Anthropic api. -/
def format_anthropic_prompt (messages : List PyDict) : Except PyExc String :=
  formatAnthropicGo "" messages

/-- An OpenAI chat-completion response value as the service sees it:
whether it is an `OpenAIObject` instance, and an otherwise opaque payload
that only the caller-supplied callback interprets. -/
structure OpenAIResponse where
  isOpenAIObject : Bool
  payload : String
  deriving DecidableEq

/-- An Anthropic completion response value: the `completion` text. -/
structure AnthropicResponse where
  completion : String
  deriving DecidableEq

/-- Behaviour of the external collaborators of one `complete_text` call:
the bounds of the max-token validator (modelled from the spec, see
`validate_max_tokens`), whether the shared rate limiter rejects the call,
the outcome of the OpenAI chat-completion call, the
`ANTHROPIC_API_KEY` process environment entry, and the outcome of the
Anthropic completion call. -/
structure Env where
  tokenMin : Int
  tokenMax : Int
  limiterRaises : Bool
  openaiResult : Except PyExc OpenAIResponse
  anthropicKey : Option String
  anthropicResult : Except PyExc AnthropicResponse

/-- Modelled from the spec: `validate_max_tokens` lives in
`app/utils/llm_utils.py`, which is not under `src/`.  Per the spec it is
an external validator that fails with `InvalidArgument` for every
`maxTokens` below the minimum or above the maximum it accepts, and
passes otherwise. -/
def validate_max_tokens (env : Env) (max_tokens : Int) : Except PyExc Unit :=
  if max_tokens < env.tokenMin || env.tokenMax < max_tokens then
    Except.error (PyExc.invalidArgument "Invalid max tokens value")
  else
    Except.ok ()

/-- Side effects a `complete_text` call can perform: consulting the
shared rate limiter, entering one of the two vendor completion
functions, and issuing the actual vendor client network call. -/
inductive Effect where
  | ratelimitAcquire
  | anthropicPath
  | openaiPath
  | openaiCreate
  | anthropicCreate
  deriving DecidableEq

/-- The fixed sentinel `complete_openai_text` returns when no callback is
supplied (the literal contains an apostrophe, assembled here from its
character code). -/
def noChoicesSentinel : String :=
  "Response doesn" ++ String.mk [Char.ofNat 39] ++ "t have choices or choices have no text."

/-- `llm_service.complete_openai_text`, with the trace of external calls
it attempts.  The body issues the chat-completion call, raises
`ValueError` when the response is not an `OpenAIObject`, hands the raw
response to the callback when one is given and returns the sentinel
otherwise; the `except` clauses turn `openai.OpenAIError`, `ValueError`
and `OpenAIException` into formatted strings and every other exception
propagates. -/
def complete_openai_text (env : Env) (max_tokens : Int) (model : String)
    (messages : List PyDict) (functions : Option (List String))
    (callback : Option (OpenAIResponse → String)) :
    Except PyExc String × List Effect :=
  let body : Except PyExc String :=
    match env.openaiResult with
    | Except.error e => Except.error e
    | Except.ok response =>
      if !response.isOpenAIObject then
        Except.error (PyExc.valueError "Invalid Response")
      else
        match callback with
        | some cb => Except.ok (cb response)
        | none => Except.ok noChoicesSentinel
  let handled : Except PyExc String :=
    match body with
    | Except.error (PyExc.openAIError m) => Except.ok ("OpenAI Client Error: " ++ m)
    | Except.error (PyExc.valueError m) => Except.ok ("OpenAI Client Value error: " ++ m)
    | Except.error (PyExc.openAIException m) => Except.ok ("complete_openai_text Exception: " ++ m)
    | r => r
  (handled, [Effect.openaiCreate])

/-- `llm_service.complete_anthropic_text`, with the trace of external
calls it attempts.  The body reads `ANTHROPIC_API_KEY` from the process
environment (a missing key raises `KeyError`), formats the prompt (a
malformed message raises `KeyError`), issues the completion call and
returns the stripped completion text; the single `except` clause only
turns the local `AnthropicException` class into a formatted string, so
every other exception — in particular every error the Anthropic client
library raises — propagates. -/
def complete_anthropic_text (env : Env) (max_tokens : Int) (model : String)
    (messages : List PyDict) : Except PyExc String × List Effect :=
  let bodyTrace : Except PyExc String × List Effect :=
    match env.anthropicKey with
    | none => (Except.error (PyExc.keyError "ANTHROPIC_API_KEY"), [])
    | some _ =>
      match format_anthropic_prompt messages with
      | Except.error e => (Except.error e, [])
      | Except.ok _prompt =>
        match env.anthropicResult with
        | Except.error e => (Except.error e, [Effect.anthropicCreate])
        | Except.ok response =>
          (Except.ok response.completion.trim, [Effect.anthropicCreate])
  let handled : Except PyExc String :=
    match bodyTrace.1 with
    | Except.error (PyExc.anthropicException m) => Except.ok ("Anthropic Client Error: " ++ m)
    | r => r
  (handled, bodyTrace.2)

/-- `llm_service.complete_text`, the LLM orchestrator, with its effect
trace.  It validates `max_tokens` before the `try` block (a validation
error propagates), consults the rate limiter inside the block, dispatches
on the vendor tag to exactly one of the two completion functions, and its
single `except` clause turns only `LLMException` values into the
`Error completing text` string. -/
def complete_text (env : Env) (max_tokens : Int) (model : String) (vendor : String)
    (messages : List PyDict) (functions : Option (List String))
    (callback : Option (OpenAIResponse → String)) :
    Except PyExc String × List Effect :=
  match validate_max_tokens env max_tokens with
  | Except.error e => (Except.error e, [])
  | Except.ok _ =>
    let is_anthropic := vendor == ANTHROPIC_AI_VENDOR
    let bodyTrace : Except PyExc String × List Effect :=
      if env.limiterRaises then
        (Except.error (PyExc.bucketFull "Bucket for complete_text is full"), [Effect.ratelimitAcquire])
      else if is_anthropic then
        let rt := complete_anthropic_text env max_tokens model messages
        (rt.1, Effect.ratelimitAcquire :: Effect.anthropicPath :: rt.2)
      else
        let rt := complete_openai_text env max_tokens model messages functions callback
        (rt.1, Effect.ratelimitAcquire :: Effect.openaiPath :: rt.2)
    let handled : Except PyExc String :=
      match bodyTrace.1 with
      | Except.error (PyExc.llmException m) => Except.ok ("Error completing text: " ++ m)
      | r => r
    (handled, bodyTrace.2)

/-- Whether a call result is a normally returned string (`Except.ok`)
rather than a propagated exception. -/
def returnsString (r : Except PyExc String) : Bool :=
  match r with
  | Except.ok _ => true
  | Except.error _ => false

/-- Modelled from the spec: `LLMDefinition` comes from `app/models.py`,
which is not under `src/`; the spec describes it as an immutable value
with identifier, display name, vendor, and token limits. -/
structure LLMDefinition where
  id : String
  name : String
  vendor : String
  max_token_length : Nat
  deriving DecidableEq

/-- Modelled from the spec: `LLMConfig` comes from `app/models.py`,
which is not under `src/`; the spec describes it as a mapping from
vendor name to an ordered list of model definitions, plus an ordered
list of vendor display names. -/
structure LLMConfig where
  llm_vendors : List (String × List LLMDefinition)
  llm_vendor_names : List String

/-- The inner loop of `get_llm_by_id`: scan one vendor's model list in
order for the first definition whose id matches. -/
def findLLM (llms : List LLMDefinition) (llm_id : String) : Option LLMDefinition :=
  match llms with
  | [] => none
  | llm :: rest => if llm.id == llm_id then some llm else findLLM rest llm_id

/-- The outer loop of `get_llm_by_id`: scan the vendors of the config
mapping in order. -/
def findLLMInVendors (vendors : List (String × List LLMDefinition)) (llm_id : String) :
    Option LLMDefinition :=
  match vendors with
  | [] => none
  | (_, llms) :: rest =>
    match findLLM llms llm_id with
    | some llm => some llm
    | none => findLLMInVendors rest llm_id

/-- `llm_service.get_llm_by_id`: get a llm config by id from the loaded
llm configuration, or `none` when no definition matches. -/
def get_llm_by_id (llm_config : LLMConfig) (llm_id : String) : Option LLMDefinition :=
  findLLMInVendors llm_config.llm_vendors llm_id

/-- A well-formed role/content message dict, built from a role and a
content string. -/
def mkMessage (role content : String) : PyDict :=
  [("role", role), ("content", content)]

/-- Specification-side rendering of one role/content message: the human
marker, one literal space and the content for role `user`; the assistant
marker, one literal space and the content for role `assistant`; nothing
for any other role. -/
def renderMessage (role content : String) : String :=
  if role == "user" then HUMAN_PROMPT ++ " " ++ content
  else if role == "assistant" then AI_PROMPT ++ " " ++ content
  else ""

/-- Specification-side left-to-right concatenation of the rendered
messages, with no other separator. -/
def renderedPrompt : List (String × String) → String
  | [] => ""
  | rc :: rest => renderMessage rc.1 rc.2 ++ renderedPrompt rest

/-- The precondition under which `format_anthropic_prompt` can process a
message without raising: the dict has a `role` key and, when that role is
`user` or `assistant`, also a `content` key. -/
def wfMessage (m : PyDict) : Bool :=
  match m.lookup "role" with
  | none => false
  | some r =>
    if r == "user" || r == "assistant" then (m.lookup "content").isSome else true

/-- A concrete loaded configuration with one vendor and one model, used
for the closed not-found conjunct of the lookup theorem. -/
def sampleConfig : LLMConfig :=
  { llm_vendors := [("openai", [⟨"gpt-4", "GPT 4", "openai", 8192⟩])],
    llm_vendor_names := ["OpenAI"] }

/-- A concrete environment in which the Anthropic client call fails with
an Anthropic client-library error while everything before it succeeds. -/
def envAnthropicDown : Env :=
  { tokenMin := 1, tokenMax := 4096, limiterRaises := false,
    openaiResult := Except.error (PyExc.openAIError "unreachable"),
    anthropicKey := some "sk-key",
    anthropicResult := Except.error (PyExc.anthropicAPIError "overloaded") }

end LlmService

namespace MermaidService

/-- `models.MermaidScript`: a value object holding one diagram script
(the spec describes it as a single text field). -/
structure MermaidScript where
  mermaid_script : String

/-- Outcome of the `subprocess.run` invocation of the renderer binary:
either the child process completed with an exit code, captured stdout and
stderr, and the content it left in the output file, or the child could
not be run at all (for instance a missing binary). -/
inductive RunOutcome where
  | completed (exitCode : Nat) (stdout stderr : String) (outContent : String)
  | spawnFailure (msg : String)
  deriving DecidableEq

/-- Behaviour of the external collaborators of one
`create_mermaid_diagram` call: the unique names the temporary-file
library picks for the two files, and what the renderer child process
does. -/
structure RenderEnv where
  tempInName : String
  tempOutName : String
  run : RunOutcome

/-- File-system and process events `create_mermaid_diagram` performs, in
order: temporary-file creation, writes, closes, spawning the child
process, and deletions (which never occur, see the theorems). -/
inductive FsEvent where
  | createTemp (name : String)
  | writeFile (name : String) (content : String)
  | closeFile (name : String)
  | spawn (args : List String)
  | deleteFile (name : String)
  deriving DecidableEq

/-- The typed failures `create_mermaid_diagram` raises:
`MermaidCliError` when the renderer exits non-zero, and
`MermaidUnexpectedError` for every other failure. -/
inductive MermaidError where
  | mermaidCliError (msg : String)
  | mermaidUnexpectedError (msg : String)
  deriving DecidableEq

/-- The `fastapi.responses.FileResponse` value the success path returns:
the path of the served file and the media type; the response body is the
content of the file at that path (see `fileAfter`). -/
structure FileResponse where
  path : String
  media_type : String
  deriving DecidableEq

/-- `mermaid_service.create_mermaid_diagram`: create the two temporary
files (`delete=False`), write the script to the input file, close both,
run `mmdc -i <in> -o <out>` with `check=True` capturing output, and
return the output file as an SVG `FileResponse`; a non-zero exit raises
`MermaidCliError` carrying the captured stderr, any other failure raises
`MermaidUnexpectedError`, and no path deletes either file.  The second
component is the event trace. -/
def create_mermaid_diagram (env : RenderEnv) (mermaid_script : MermaidScript) :
    Except MermaidError FileResponse × List FsEvent :=
  let trace : List FsEvent :=
    [FsEvent.createTemp env.tempInName, FsEvent.createTemp env.tempOutName,
     FsEvent.writeFile env.tempInName mermaid_script.mermaid_script,
     FsEvent.closeFile env.tempInName, FsEvent.closeFile env.tempOutName,
     FsEvent.spawn ["mmdc", "-i", env.tempInName, "-o", env.tempOutName]]
  match env.run with
  | RunOutcome.completed exitCode _stdout stderr _outContent =>
    if exitCode ≠ 0 then
      (Except.error (MermaidError.mermaidCliError ("Mermaid CLI failed: " ++ stderr)), trace)
    else
      (Except.ok { path := env.tempOutName, media_type := "image/svg+xml" }, trace)
  | RunOutcome.spawnFailure msg =>
    (Except.error (MermaidError.mermaidUnexpectedError ("Unexpected error occurred: " ++ msg)), trace)

/-- Contents of the named file once `create_mermaid_diagram` has run
(for distinct temporary-file names): the input file holds the script, the
output file holds whatever the renderer left there (empty when the child
never ran), and no other file was touched.  The body of the returned
`FileResponse` is `fileAfter` at its path. -/
def fileAfter (env : RenderEnv) (mermaid_script : MermaidScript) (name : String) :
    Option String :=
  if name = env.tempOutName then
    some (match env.run with
      | RunOutcome.completed _ _ _ outContent => outContent
      | RunOutcome.spawnFailure _ => "")
  else if name = env.tempInName then
    some mermaid_script.mermaid_script
  else none

end MermaidService

namespace LlmService

/-- The prompt loop on well-formed messages concatenates the rendered
messages onto the accumulator. -/
theorem formatAnthropicGo_renders : ∀ (rcs : List (String × String)) (acc : String),
    formatAnthropicGo acc (rcs.map fun rc => mkMessage rc.1 rc.2)
      = Except.ok (acc ++ renderedPrompt rcs)
  | [], acc => by simp [formatAnthropicGo, renderedPrompt]
  | (r, c) :: rest, acc => by
    have hrole : dictGet (mkMessage r c) "role" = Except.ok r := rfl
    have hcontent : dictGet (mkMessage r c) "content" = Except.ok c := rfl
    by_cases hu : r == "user"
    · simp [formatAnthropicGo, hrole, hcontent, hu, renderedPrompt, renderMessage,
        formatAnthropicGo_renders rest, String.append_assoc]
    · by_cases ha : r == "assistant"
      · simp [formatAnthropicGo, hrole, hcontent, hu, ha, renderedPrompt, renderMessage,
          formatAnthropicGo_renders rest, String.append_assoc]
      · simp [formatAnthropicGo, hrole, hu, ha, renderedPrompt, renderMessage,
          formatAnthropicGo_renders rest]

/-- On a list of well-formed messages the prompt loop returns normally. -/
theorem formatAnthropicGo_total (msgs : List PyDict) :
    ∀ acc, (∀ m ∈ msgs, wfMessage m = true) →
      ∃ s, formatAnthropicGo acc msgs = Except.ok s := by
  induction msgs with
  | nil => exact fun acc _ => ⟨acc, rfl⟩
  | cons m rest ih =>
    intro acc h
    have hm : wfMessage m = true := h m (by simp)
    have hrest : ∀ x ∈ rest, wfMessage x = true := fun x hx => h x (by simp [hx])
    cases hrole : m.lookup "role" with
    | none => simp [wfMessage, hrole] at hm
    | some r =>
      by_cases hu : r == "user"
      · cases hcont : m.lookup "content" with
        | none => simp [wfMessage, hrole, hcont, hu] at hm
        | some c =>
          obtain ⟨s, hs⟩ := ih (acc ++ HUMAN_PROMPT ++ " " ++ c) hrest
          exact ⟨s, by simp [formatAnthropicGo, dictGet, hrole, hcont, hu, hs]⟩
      · by_cases ha : r == "assistant"
        · cases hcont : m.lookup "content" with
          | none => simp [wfMessage, hrole, hcont, hu, ha] at hm
          | some c =>
            obtain ⟨s, hs⟩ := ih (acc ++ AI_PROMPT ++ " " ++ c) hrest
            exact ⟨s, by simp [formatAnthropicGo, dictGet, hrole, hcont, hu, ha, hs]⟩
        · obtain ⟨s, hs⟩ := ih acc hrest
          exact ⟨s, by simp [formatAnthropicGo, dictGet, hrole, hu, ha, hs]⟩

/-- As soon as the message list contains a message that violates the
precondition, the prompt loop raises a `KeyError`. -/
theorem formatAnthropicGo_keyError (msgs : List PyDict) :
    ∀ acc, (∃ m ∈ msgs, wfMessage m = false) →
      ∃ k, formatAnthropicGo acc msgs = Except.error (PyExc.keyError k) := by
  induction msgs with
  | nil => intro acc h; simp at h
  | cons m rest ih =>
    intro acc h
    cases hwf : wfMessage m with
    | false =>
      cases hrole : m.lookup "role" with
      | none => exact ⟨"role", by simp [formatAnthropicGo, dictGet, hrole]⟩
      | some r =>
        by_cases hu : r == "user"
        · cases hcont : m.lookup "content" with
          | none => exact ⟨"content", by simp [formatAnthropicGo, dictGet, hrole, hcont, hu]⟩
          | some c => simp [wfMessage, hrole, hcont, hu] at hwf
        · by_cases ha : r == "assistant"
          · cases hcont : m.lookup "content" with
            | none => exact ⟨"content", by simp [formatAnthropicGo, dictGet, hrole, hcont, hu, ha]⟩
            | some c => simp [wfMessage, hrole, hcont, hu, ha] at hwf
          · simp [wfMessage, hrole, hu, ha] at hwf
    | true =>
      obtain ⟨x, hx, hxf⟩ := h
      rcases List.mem_cons.mp hx with hxm | hxrest
      · rw [hxm] at hxf; rw [hxf] at hwf; exact absurd hwf (by simp)
      · have hbad : ∃ x ∈ rest, wfMessage x = false := ⟨x, hxrest, hxf⟩
        cases hrole : m.lookup "role" with
        | none => simp [wfMessage, hrole] at hwf
        | some r =>
          by_cases hu : r == "user"
          · cases hcont : m.lookup "content" with
            | none => simp [wfMessage, hrole, hcont, hu] at hwf
            | some c =>
              obtain ⟨k, hk⟩ := ih (acc ++ HUMAN_PROMPT ++ " " ++ c) hbad
              exact ⟨k, by simp [formatAnthropicGo, dictGet, hrole, hcont, hu, hk]⟩
          · by_cases ha : r == "assistant"
            · cases hcont : m.lookup "content" with
              | none => simp [wfMessage, hrole, hcont, hu, ha] at hwf
              | some c =>
                obtain ⟨k, hk⟩ := ih (acc ++ AI_PROMPT ++ " " ++ c) hbad
                exact ⟨k, by simp [formatAnthropicGo, dictGet, hrole, hcont, hu, ha, hk]⟩
            · obtain ⟨k, hk⟩ := ih acc hbad
              exact ⟨k, by simp [formatAnthropicGo, dictGet, hrole, hu, ha, hk]⟩

end LlmService

namespace LlmService

/-- C4: for every list of role/content messages, `format_anthropic_prompt`
returns the left-to-right concatenation in which a `user` message
contributes the human marker, one literal space and its content, an
`assistant` message contributes the assistant marker, one literal space
and its content, and any other role contributes nothing; in particular on
`[{user, hi}, {assistant, hello}]` it produces exactly the human marker,
` hi`, the assistant marker and ` hello` with no other separator. -/
theorem format_anthropic_prompt_spec :
    (∀ rcs : List (String × String),
        format_anthropic_prompt (rcs.map fun rc => mkMessage rc.1 rc.2)
          = Except.ok (renderedPrompt rcs))
      ∧ format_anthropic_prompt [mkMessage "user" "hi", mkMessage "assistant" "hello"]
          = Except.ok (HUMAN_PROMPT ++ " hi" ++ AI_PROMPT ++ " hello") := by
  constructor
  · intro rcs
    have h := formatAnthropicGo_renders rcs ""
    simpa [format_anthropic_prompt] using h
  · rfl

/-- C10: `format_anthropic_prompt` is total exactly under the
precondition that every message has a `role` key and, when that role is
`user` or `assistant`, also a `content` key; a message list containing a
message that violates the precondition makes it raise a `KeyError`
instead of returning a string. -/
theorem format_anthropic_prompt_totality :
    (∀ msgs : List PyDict, (∀ m ∈ msgs, wfMessage m = true) →
        ∃ s, format_anthropic_prompt msgs = Except.ok s)
      ∧ (∀ msgs : List PyDict, (∃ m ∈ msgs, wfMessage m = false) →
        ∃ k, format_anthropic_prompt msgs = Except.error (PyExc.keyError k)) :=
  ⟨fun msgs h => formatAnthropicGo_total msgs "" h,
   fun msgs h => formatAnthropicGo_keyError msgs "" h⟩

/-- Witness for C10 at concrete inputs: a list of one well-formed user
message returns normally, and a list with a user message lacking the
`content` key raises a `KeyError`. -/
theorem format_anthropic_prompt_totality_witness :
    (∃ s, format_anthropic_prompt [[("role", "user"), ("content", "hi")]] = Except.ok s)
      ∧ (∃ k, format_anthropic_prompt [[("role", "user")]]
          = Except.error (PyExc.keyError k)) :=
  ⟨format_anthropic_prompt_totality.1 [[("role", "user"), ("content", "hi")]] (by decide),
   format_anthropic_prompt_totality.2 [[("role", "user")]] (by decide)⟩

/-- The inner loop of `get_llm_by_id` is the first id match of one
vendor list. -/
theorem findLLM_eq_find? (llms : List LLMDefinition) (llm_id : String) :
    findLLM llms llm_id = llms.find? (fun llm => llm.id == llm_id) := by
  induction llms with
  | nil => rfl
  | cons llm rest ih =>
    by_cases h : llm.id == llm_id
    · simp [findLLM, List.find?, h]
    · simp only [findLLM, List.find?]
      rw [if_neg h, Bool.eq_false_iff.mpr h, ih]

/-- The outer loop of `get_llm_by_id` is the first id match of the
flattened vendor lists, in mapping order. -/
theorem findLLMInVendors_eq_find? (vendors : List (String × List LLMDefinition))
    (llm_id : String) :
    findLLMInVendors vendors llm_id
      = ((vendors.map Prod.snd).flatten).find? (fun llm => llm.id == llm_id) := by
  induction vendors with
  | nil => rfl
  | cons v rest ih =>
    rw [List.map_cons, List.flatten_cons, List.find?_append]
    show (match findLLM v.2 llm_id with
          | some llm => some llm
          | none => findLLMInVendors rest llm_id) = _
    rw [findLLM_eq_find? v.2 llm_id, ih]
    cases List.find? (fun llm => llm.id == llm_id) v.2 <;> simp

/-- C7: `get_llm_by_id` returns the first definition whose id matches,
scanning vendors in the mapping order and each vendor's model list in
order, and returns `none` (raising nothing) when no definition in any
vendor's list has the id; the closed conjunct shows the not-found case on
a concrete loaded config. -/
theorem get_llm_by_id_first_match :
    (∀ (llm_config : LLMConfig) (llm_id : String),
        get_llm_by_id llm_config llm_id
          = ((llm_config.llm_vendors.map Prod.snd).flatten).find?
              (fun llm => llm.id == llm_id))
      ∧ get_llm_by_id sampleConfig "missing-model" = none := by
  constructor
  · intro llm_config llm_id
    exact findLLMInVendors_eq_find? llm_config.llm_vendors llm_id
  · rfl

/-- C8: in the OpenAI-style path, on a successful client response that is
an `OpenAIObject`: with a callback supplied, the raw response is passed to
the callback and its string result is returned unchanged; with no
callback, the fixed sentinel string is returned. -/
theorem complete_openai_text_success_behavior (env : Env) (max_tokens : Int)
    (model : String) (messages : List PyDict) (functions : Option (List String))
    (cb : OpenAIResponse → String) (response : OpenAIResponse)
    (hresp : env.openaiResult = Except.ok response)
    (hobj : response.isOpenAIObject = true) :
    (complete_openai_text env max_tokens model messages functions (some cb)).1
        = Except.ok (cb response)
      ∧ (complete_openai_text env max_tokens model messages functions none).1
        = Except.ok noChoicesSentinel := by
  constructor <;> simp [complete_openai_text, hresp, hobj]

/-- Witness for C8 at a concrete environment: the callback result is
returned unchanged, and without a callback the sentinel is returned. -/
theorem complete_openai_text_success_behavior_witness :
    (complete_openai_text
        { tokenMin := 1, tokenMax := 4096, limiterRaises := false,
          openaiResult := Except.ok { isOpenAIObject := true, payload := "text" },
          anthropicKey := none,
          anthropicResult := Except.error (PyExc.otherError "down") }
        16 "gpt-4" [] none (some (fun r => r.payload))).1 = Except.ok "text"
      ∧ (complete_openai_text
        { tokenMin := 1, tokenMax := 4096, limiterRaises := false,
          openaiResult := Except.ok { isOpenAIObject := true, payload := "text" },
          anthropicKey := none,
          anthropicResult := Except.error (PyExc.otherError "down") }
        16 "gpt-4" [] none none).1 = Except.ok noChoicesSentinel :=
  complete_openai_text_success_behavior
    { tokenMin := 1, tokenMax := 4096, limiterRaises := false,
      openaiResult := Except.ok { isOpenAIObject := true, payload := "text" },
      anthropicKey := none,
      anthropicResult := Except.error (PyExc.otherError "down") }
    16 "gpt-4" [] none (fun r => r.payload)
    { isOpenAIObject := true, payload := "text" } rfl rfl

end LlmService

namespace MermaidService

/-- C5: whenever the renderer child process exits non-zero,
`create_mermaid_diagram` raises `MermaidCliError` whose payload carries
the captured standard-error text of the process. -/
theorem create_mermaid_diagram_nonzero_exit (env : RenderEnv) (s : MermaidScript)
    (exitCode : Nat) (stdout stderr outContent : String)
    (hrun : env.run = RunOutcome.completed exitCode stdout stderr outContent)
    (hne : exitCode ≠ 0) :
    (create_mermaid_diagram env s).1
      = Except.error (MermaidError.mermaidCliError ("Mermaid CLI failed: " ++ stderr)) := by
  simp [create_mermaid_diagram, hrun, hne]

/-- Witness for C5: a renderer exiting with code 1 and stderr
`parse error` yields a tool failure carrying `parse error`. -/
theorem create_mermaid_diagram_nonzero_exit_witness :
    (create_mermaid_diagram
        { tempInName := "/tmp/a.mmd", tempOutName := "/tmp/b.svg",
          run := RunOutcome.completed 1 "" "parse error" "" }
        { mermaid_script := "graph TD" }).1
      = Except.error (MermaidError.mermaidCliError "Mermaid CLI failed: parse error") :=
  create_mermaid_diagram_nonzero_exit
    { tempInName := "/tmp/a.mmd", tempOutName := "/tmp/b.svg",
      run := RunOutcome.completed 1 "" "parse error" "" }
    { mermaid_script := "graph TD" } 1 "" "parse error" "" rfl (by decide)

/-- C6: whenever the renderer child process exits with code 0 having
written the output file, `create_mermaid_diagram` returns a file response
with content type `image/svg+xml` whose body — the contents of the file
at the response path — equals the contents the renderer left in the
output temporary file. -/
theorem create_mermaid_diagram_success (env : RenderEnv) (s : MermaidScript)
    (stdout stderr svg : String)
    (hrun : env.run = RunOutcome.completed 0 stdout stderr svg) :
    (create_mermaid_diagram env s).1
        = Except.ok { path := env.tempOutName, media_type := "image/svg+xml" }
      ∧ fileAfter env s env.tempOutName = some svg := by
  constructor
  · simp [create_mermaid_diagram, hrun]
  · simp [fileAfter, hrun]

/-- Witness for C6: a renderer exiting 0 after writing a well-formed SVG
yields the SVG file response and the body equals the file contents. -/
theorem create_mermaid_diagram_success_witness :
    (create_mermaid_diagram
        { tempInName := "/tmp/a.mmd", tempOutName := "/tmp/b.svg",
          run := RunOutcome.completed 0 "" "" "<svg></svg>" }
        { mermaid_script := "graph TD" }).1
        = Except.ok { path := "/tmp/b.svg", media_type := "image/svg+xml" }
      ∧ fileAfter
        { tempInName := "/tmp/a.mmd", tempOutName := "/tmp/b.svg",
          run := RunOutcome.completed 0 "" "" "<svg></svg>" }
        { mermaid_script := "graph TD" } "/tmp/b.svg" = some "<svg></svg>" :=
  create_mermaid_diagram_success
    { tempInName := "/tmp/a.mmd", tempOutName := "/tmp/b.svg",
      run := RunOutcome.completed 0 "" "" "<svg></svg>" }
    { mermaid_script := "graph TD" } "" "" "<svg></svg>" rfl

/-- C9: on every execution path (success, tool failure, unexpected
failure) the event trace of `create_mermaid_diagram` is exactly: create
the two uniquely named temporary files, write the whole script to the
input file, close both files, and only then spawn the child process; no
path ever deletes either file (no delete event occurs at all). -/
theorem create_mermaid_diagram_resource_discipline (env : RenderEnv)
    (s : MermaidScript) (hnames : env.tempInName ≠ env.tempOutName) :
    (create_mermaid_diagram env s).2
        = [FsEvent.createTemp env.tempInName, FsEvent.createTemp env.tempOutName,
           FsEvent.writeFile env.tempInName s.mermaid_script,
           FsEvent.closeFile env.tempInName, FsEvent.closeFile env.tempOutName,
           FsEvent.spawn ["mmdc", "-i", env.tempInName, "-o", env.tempOutName]]
      ∧ (∀ n, FsEvent.deleteFile n ∉ (create_mermaid_diagram env s).2) := by
  have htrace : (create_mermaid_diagram env s).2
      = [FsEvent.createTemp env.tempInName, FsEvent.createTemp env.tempOutName,
         FsEvent.writeFile env.tempInName s.mermaid_script,
         FsEvent.closeFile env.tempInName, FsEvent.closeFile env.tempOutName,
         FsEvent.spawn ["mmdc", "-i", env.tempInName, "-o", env.tempOutName]] := by
    cases hrun : env.run with
    | completed exitCode stdout stderr outContent =>
      by_cases hne : exitCode ≠ 0 <;> simp [create_mermaid_diagram, hrun, hne]
    | spawnFailure msg => simp [create_mermaid_diagram, hrun]
  refine ⟨htrace, fun n => ?_⟩
  rw [htrace]
  simp

/-- Witness for C9 at a concrete call with distinct temporary names. -/
theorem create_mermaid_diagram_resource_discipline_witness :
    (create_mermaid_diagram
        { tempInName := "/tmp/a.mmd", tempOutName := "/tmp/b.svg",
          run := RunOutcome.spawnFailure "mmdc not found" }
        { mermaid_script := "graph TD" }).2
        = [FsEvent.createTemp "/tmp/a.mmd", FsEvent.createTemp "/tmp/b.svg",
           FsEvent.writeFile "/tmp/a.mmd" "graph TD",
           FsEvent.closeFile "/tmp/a.mmd", FsEvent.closeFile "/tmp/b.svg",
           FsEvent.spawn ["mmdc", "-i", "/tmp/a.mmd", "-o", "/tmp/b.svg"]]
      ∧ (∀ n, FsEvent.deleteFile n ∉ (create_mermaid_diagram
          { tempInName := "/tmp/a.mmd", tempOutName := "/tmp/b.svg",
            run := RunOutcome.spawnFailure "mmdc not found" }
          { mermaid_script := "graph TD" }).2) :=
  create_mermaid_diagram_resource_discipline
    { tempInName := "/tmp/a.mmd", tempOutName := "/tmp/b.svg",
      run := RunOutcome.spawnFailure "mmdc not found" }
    { mermaid_script := "graph TD" } (by decide)

end MermaidService

namespace LlmService

/-- The modelled validator passes every value inside its accepted range. -/
theorem validate_max_tokens_ok (env : Env) (mt : Int)
    (hlo : env.tokenMin ≤ mt) (hhi : mt ≤ env.tokenMax) :
    validate_max_tokens env mt = Except.ok () := by
  simp [validate_max_tokens, not_lt.mpr hlo, not_lt.mpr hhi]

/-- The modelled validator fails with `InvalidArgument` outside its
accepted range. -/
theorem validate_max_tokens_rejects (env : Env) (mt : Int)
    (h : mt < env.tokenMin ∨ env.tokenMax < mt) :
    validate_max_tokens env mt
      = Except.error (PyExc.invalidArgument "Invalid max tokens value") := by
  rcases h with h | h <;> simp [validate_max_tokens, h]

/-- The Anthropic path attempts at most its own completion call: its
trace is empty when it raises before the call and exactly the one
completion call otherwise. -/
theorem complete_anthropic_text_trace (env : Env) (mt : Int) (model : String)
    (msgs : List PyDict) :
    (complete_anthropic_text env mt model msgs).2 = []
      ∨ (complete_anthropic_text env mt model msgs).2 = [Effect.anthropicCreate] := by
  cases hk : env.anthropicKey with
  | none => left; simp [complete_anthropic_text, hk]
  | some k =>
    cases hf : format_anthropic_prompt msgs with
    | error e => left; simp [complete_anthropic_text, hk, hf]
    | ok p =>
      cases hr : env.anthropicResult with
      | error e => right; simp [complete_anthropic_text, hk, hf, hr]
      | ok r => right; simp [complete_anthropic_text, hk, hf, hr]

/-- With validation passed, the limiter admitting the call, and the
Anthropic vendor tag, the orchestrator trace is the limiter step, the
Anthropic path entry, and the Anthropic path trace. -/
theorem complete_text_trace_anthropic (env : Env) (mt : Int) (model vendor : String)
    (msgs : List PyDict) (fns : Option (List String))
    (cb : Option (OpenAIResponse → String))
    (hval : validate_max_tokens env mt = Except.ok ())
    (hlim : env.limiterRaises = false) (hv : vendor = ANTHROPIC_AI_VENDOR) :
    (complete_text env mt model vendor msgs fns cb).2
      = Effect.ratelimitAcquire :: Effect.anthropicPath
          :: (complete_anthropic_text env mt model msgs).2 := by
  simp [complete_text, hval, hlim, hv]

/-- With validation passed, the limiter admitting the call, and any
non-Anthropic vendor tag, the orchestrator trace is the limiter step, the
OpenAI path entry, and the one OpenAI completion call. -/
theorem complete_text_trace_openai (env : Env) (mt : Int) (model vendor : String)
    (msgs : List PyDict) (fns : Option (List String))
    (cb : Option (OpenAIResponse → String))
    (hval : validate_max_tokens env mt = Except.ok ())
    (hlim : env.limiterRaises = false) (hv : vendor ≠ ANTHROPIC_AI_VENDOR) :
    (complete_text env mt model vendor msgs fns cb).2
      = [Effect.ratelimitAcquire, Effect.openaiPath, Effect.openaiCreate] := by
  simp [complete_text, hval, hlim, hv, complete_openai_text]

/-- C2: for every `maxTokens` the validator rejects, `complete_text`
takes the validation error path with `InvalidArgument` before doing
anything else: the result is the propagated validation error, the trace
is empty, so no rate-limiter token is consumed and neither vendor path
nor any network call is attempted. -/
theorem complete_text_invalid_max_tokens (env : Env) (max_tokens : Int)
    (model vendor : String) (messages : List PyDict)
    (functions : Option (List String)) (callback : Option (OpenAIResponse → String))
    (hbad : max_tokens < env.tokenMin ∨ env.tokenMax < max_tokens) :
    complete_text env max_tokens model vendor messages functions callback
        = (Except.error (PyExc.invalidArgument "Invalid max tokens value"), [])
      ∧ ∀ e : Effect,
          e ∉ (complete_text env max_tokens model vendor messages functions callback).2 := by
  have hval := validate_max_tokens_rejects env max_tokens hbad
  have heq : complete_text env max_tokens model vendor messages functions callback
      = (Except.error (PyExc.invalidArgument "Invalid max tokens value"), []) := by
    simp [complete_text, hval]
  exact ⟨heq, fun e => by rw [heq]; simp⟩

/-- Witness for C2: a `maxTokens` below the validator minimum makes
`complete_text` return the propagated `InvalidArgument` with an empty
effect trace. -/
theorem complete_text_invalid_max_tokens_witness :
    complete_text envAnthropicDown 0 "claude-2" ANTHROPIC_AI_VENDOR [] none none
        = (Except.error (PyExc.invalidArgument "Invalid max tokens value"), [])
      ∧ ∀ e : Effect,
          e ∉ (complete_text envAnthropicDown 0 "claude-2" ANTHROPIC_AI_VENDOR [] none none).2 :=
  complete_text_invalid_max_tokens envAnthropicDown 0 "claude-2" ANTHROPIC_AI_VENDOR
    [] none none (Or.inl (by decide))

/-- C3: for every call that passes validation and is admitted by the
limiter, the Anthropic vendor tag makes exactly the Anthropic completion
path run with the OpenAI-style path never entered, and every other
vendor tag makes exactly the OpenAI-compatible path run with the
Anthropic path never entered. -/
theorem complete_text_vendor_dispatch (env : Env) (mt : Int) (model vendor : String)
    (msgs : List PyDict) (fns : Option (List String))
    (cb : Option (OpenAIResponse → String))
    (hlo : env.tokenMin ≤ mt) (hhi : mt ≤ env.tokenMax)
    (hlim : env.limiterRaises = false) :
    (vendor = ANTHROPIC_AI_VENDOR →
        (complete_text env mt model vendor msgs fns cb).2.count Effect.anthropicPath = 1
          ∧ (complete_text env mt model vendor msgs fns cb).2.count Effect.openaiPath = 0)
      ∧ (vendor ≠ ANTHROPIC_AI_VENDOR →
        (complete_text env mt model vendor msgs fns cb).2.count Effect.openaiPath = 1
          ∧ (complete_text env mt model vendor msgs fns cb).2.count Effect.anthropicPath = 0) := by
  have hval := validate_max_tokens_ok env mt hlo hhi
  constructor
  · intro hv
    have ht := complete_text_trace_anthropic env mt model vendor msgs fns cb hval hlim hv
    rcases complete_anthropic_text_trace env mt model msgs with h2 | h2 <;>
      rw [ht, h2] <;> decide
  · intro hv
    have ht := complete_text_trace_openai env mt model vendor msgs fns cb hval hlim hv
    rw [ht]
    decide

/-- Witness for C3 at the two vendor tags: the Anthropic tag enters only
the Anthropic path, another tag enters only the OpenAI path. -/
theorem complete_text_vendor_dispatch_witness :
    ((complete_text envAnthropicDown 100 "claude-2" ANTHROPIC_AI_VENDOR [] none
        none).2.count Effect.anthropicPath = 1
      ∧ (complete_text envAnthropicDown 100 "claude-2" ANTHROPIC_AI_VENDOR [] none
        none).2.count Effect.openaiPath = 0)
      ∧ ((complete_text envAnthropicDown 100 "gpt-4" "OpenAI" [] none
        none).2.count Effect.openaiPath = 1
      ∧ (complete_text envAnthropicDown 100 "gpt-4" "OpenAI" [] none
        none).2.count Effect.anthropicPath = 0) :=
  ⟨(complete_text_vendor_dispatch envAnthropicDown 100 "claude-2" ANTHROPIC_AI_VENDOR
      [] none none (by decide) (by decide) rfl).1 rfl,
   (complete_text_vendor_dispatch envAnthropicDown 100 "gpt-4" "OpenAI"
      [] none none (by decide) (by decide) rfl).2 (by decide)⟩

end LlmService

namespace LlmService

/-- C1 counterexample: at a concrete call (Anthropic vendor, valid token
budget, limiter admitting, well-formed messages) in which the Anthropic
client raises a client-library error, `complete_text` does not return a
string: the exception propagates to the caller, because its handler only
catches `LLMException` and the Anthropic path handler only catches the
local `AnthropicException` class, which the client library never
raises. -/
theorem complete_text_exception_escape :
    returnsString (complete_text envAnthropicDown 100 "claude-2" ANTHROPIC_AI_VENDOR
        [[("role", "user"), ("content", "hi")]] none none).1 = false
      ∧ (complete_text envAnthropicDown 100 "claude-2" ANTHROPIC_AI_VENDOR
        [[("role", "user"), ("content", "hi")]] none none).1
        = Except.error (PyExc.anthropicAPIError "overloaded") := by
  constructor <;> rfl

/-- C1 amended: only some errors are converted into a returned string.
Errors of the classes the handlers actually catch are converted — in the
OpenAI-style path, OpenAI client errors and the malformed-response
`ValueError` become descriptive strings — but a validation failure
propagates as `InvalidArgument` (it is raised before the `try` block),
and in the Anthropic path a client-library error propagates as an
exception, since the handler there catches only the locally defined
`AnthropicException`. -/
theorem complete_text_error_policy (env : Env) (max_tokens : Int)
    (model vendor : String) (functions : Option (List String))
    (callback : Option (OpenAIResponse → String)) :
    (∀ messages : List PyDict,
        (max_tokens < env.tokenMin ∨ env.tokenMax < max_tokens) →
        complete_text env max_tokens model vendor messages functions callback
          = (Except.error (PyExc.invalidArgument "Invalid max tokens value"), []))
      ∧ (∀ (messages : List PyDict) (m : String),
          env.tokenMin ≤ max_tokens → max_tokens ≤ env.tokenMax →
          env.limiterRaises = false → vendor ≠ ANTHROPIC_AI_VENDOR →
          env.openaiResult = Except.error (PyExc.openAIError m) →
          (complete_text env max_tokens model vendor messages functions callback).1
            = Except.ok ("OpenAI Client Error: " ++ m))
      ∧ (∀ (messages : List PyDict) (response : OpenAIResponse),
          env.tokenMin ≤ max_tokens → max_tokens ≤ env.tokenMax →
          env.limiterRaises = false → vendor ≠ ANTHROPIC_AI_VENDOR →
          env.openaiResult = Except.ok response → response.isOpenAIObject = false →
          (complete_text env max_tokens model vendor messages functions callback).1
            = Except.ok "OpenAI Client Value error: Invalid Response")
      ∧ (∀ (rcs : List (String × String)) (m key : String),
          env.tokenMin ≤ max_tokens → max_tokens ≤ env.tokenMax →
          env.limiterRaises = false → vendor = ANTHROPIC_AI_VENDOR →
          env.anthropicKey = some key →
          env.anthropicResult = Except.error (PyExc.anthropicAPIError m) →
          (complete_text env max_tokens model vendor
              (rcs.map fun rc => mkMessage rc.1 rc.2) functions callback).1
            = Except.error (PyExc.anthropicAPIError m)) := by
  refine ⟨fun messages hbad => ?_, fun messages m hlo hhi hlim hv hresp => ?_,
    fun messages response hlo hhi hlim hv hresp hobj => ?_,
    fun rcs m key hlo hhi hlim hv hkey hresp => ?_⟩
  · simp [complete_text, validate_max_tokens_rejects env max_tokens hbad]
  · simp [complete_text, validate_max_tokens_ok env max_tokens hlo hhi, hlim, hv,
      complete_openai_text, hresp]
  · simp [complete_text, validate_max_tokens_ok env max_tokens hlo hhi, hlim, hv,
      complete_openai_text, hresp, hobj]
  · simp [complete_text, validate_max_tokens_ok env max_tokens hlo hhi, hlim, hv,
      complete_anthropic_text, hkey, hresp, formatAnthropicGo_renders,
      format_anthropic_prompt]

/-- Witness for C1 amended, at concrete calls against
`envAnthropicDown`: an out-of-range token budget propagates
`InvalidArgument` with no effect performed, and an Anthropic
client-library failure propagates as an exception. -/
theorem complete_text_error_policy_witness :
    (complete_text envAnthropicDown 0 "claude-2" "OpenAI" [] none none
        = (Except.error (PyExc.invalidArgument "Invalid max tokens value"), []))
      ∧ ((complete_text envAnthropicDown 100 "claude-2" ANTHROPIC_AI_VENDOR
          [mkMessage "user" "hi"] none none).1
        = Except.error (PyExc.anthropicAPIError "overloaded")) :=
  ⟨(complete_text_error_policy envAnthropicDown 0 "claude-2" "OpenAI" none none).1
      [] (Or.inl (by decide)),
   (complete_text_error_policy envAnthropicDown 100 "claude-2" ANTHROPIC_AI_VENDOR
      none none).2.2.2 [("user", "hi")] "overloaded" "sk-key"
      (by decide) (by decide) rfl rfl rfl rfl⟩

end LlmService
